import Mathlib

/-!
Shallow embedding of the merchandise-management application (src/app.py):
the data model (merchandise items, customers), the rank classifier, the
profit calculators, the customer statistics aggregator, the item
query/filter engine and the delete operations, together with theorems
settling the specification claims.

Currency columns are SQL `REAL`; they are embedded as `ℚ`. A nullable
column is an `Option`; `pyOr0` is Python's `x or 0` on a numeric field.
-/

namespace App

/-- A row of the `merchandise` table (src/app.py, `init_db`). -/
structure Item where
  id : Nat
  purchase_date : Option String
  photo_path : Option String
  product_name : String
  store_name : Option String
  purchase_price : Option ℚ
  payment_method : Option String
  is_listed : Bool
  listing_date : Option String
  sold_date : Option String
  listing_price : Option ℚ
  expected_shipping : Option ℚ
  expected_commission : Option ℚ
  sale_price : Option ℚ
  shipping_cost : Option ℚ
  sales_platform : Option String
  commission : Option ℚ
  is_shipped : Bool
  memo : Option String
  customer_id : Option Nat
  created_at : Option String
  updated_at : Option String
deriving DecidableEq

/-- A row of the `customers` table (src/app.py, `init_db`). -/
structure Customer where
  id : Nat
  name : String
  email : Option String
  phone : Option String
  address : Option String
  memo : Option String
  created_at : Option String
  updated_at : Option String
deriving DecidableEq

/-- The record store: both tables. -/
structure DB where
  items : List Item
  customers : List Customer
deriving DecidableEq

/-- The four customer loyalty tiers. -/
inductive Rank where
  | bronze
  | silver
  | gold
  | platinum
deriving DecidableEq

/-- `RANK_THRESHOLDS` (src/app.py line 172). -/
def RANK_THRESHOLDS : Rank → ℚ
  | .platinum => 100000
  | .gold => 50000
  | .silver => 10000
  | .bronze => 0

/-- `RANK_COLORS` (src/app.py line 173). -/
def RANK_COLORS : Rank → String
  | .platinum => "#E5E4E2"
  | .gold => "#FFD700"
  | .silver => "#C0C0C0"
  | .bronze => "#CD7F32"

/-- `RANK_NAMES` (src/app.py line 174). -/
def RANK_NAMES : Rank → String
  | .platinum => "プラチナ"
  | .gold => "ゴールド"
  | .silver => "シルバー"
  | .bronze => "ブロンズ"

/-- `get_customer_rank` (src/app.py lines 177-181): highest-first
threshold chain. -/
def get_customer_rank (total : ℚ) : Rank :=
  if total ≥ RANK_THRESHOLDS .platinum then .platinum
  else if total ≥ RANK_THRESHOLDS .gold then .gold
  else if total ≥ RANK_THRESHOLDS .silver then .silver
  else .bronze

/-- Python's `x or 0` on a nullable numeric field. -/
def pyOr0 (x : Option ℚ) : ℚ :=
  match x with
  | none => 0
  | some v => v

/-- `calculate_profit` (src/app.py lines 200-201). -/
def calculate_profit (item : Item) : ℚ :=
  pyOr0 item.sale_price - pyOr0 item.purchase_price
    - pyOr0 item.shipping_cost - pyOr0 item.commission

/-- `calculate_profit_rate` (src/app.py lines 204-207). -/
def calculate_profit_rate (item : Item) : ℚ :=
  let profit := calculate_profit item
  let purchase := pyOr0 item.purchase_price
  if purchase > 0 then profit / purchase * 100 else 0

/-- `calculate_expected_profit` (src/app.py lines 210-216). -/
def calculate_expected_profit (item : Item) : ℚ :=
  let listing_price := pyOr0 item.listing_price
  let purchase_price := pyOr0 item.purchase_price
  let expected_shipping := pyOr0 item.expected_shipping
  let expected_commission := pyOr0 item.expected_commission
  listing_price - purchase_price - expected_shipping - expected_commission

/-- `calculate_expected_profit_rate` (src/app.py lines 219-223). -/
def calculate_expected_profit_rate (item : Item) : ℚ :=
  let profit := calculate_expected_profit item
  let purchase := pyOr0 item.purchase_price
  if purchase > 0 then profit / purchase * 100 else 0

/-- The SQL sold predicate `sold_date IS NOT NULL AND sold_date != ''`. -/
def isSold (it : Item) : Bool :=
  match it.sold_date with
  | none => false
  | some s => s != ""

/-- Result shape of `get_customer_stats`. -/
structure CustomerStats where
  purchase_count : Nat
  total_purchase : ℚ
  rank : Rank
  rank_name : String
  rank_color : String
deriving DecidableEq

/-- `get_customer_stats` (src/app.py lines 184-193): one SQL query
`SELECT COUNT(*), COALESCE(SUM(sale_price), 0) FROM merchandise WHERE
customer_id = cid AND sold_date IS NOT NULL AND sold_date != ''`.
`COUNT(*)` is the row count of the matching rows; `SUM` skips SQL NULLs,
so it is the sum over `filterMap sale_price`; `COALESCE` makes the empty
sum 0, which `List.sum` already gives. -/
def get_customer_stats (db : DB) (customer_id : Nat) : CustomerStats :=
  let rows := db.items.filter (fun it => it.customer_id == some customer_id && isSold it)
  let total : ℚ := (rows.filterMap Item.sale_price).sum
  let count : Nat := rows.length
  let rank := get_customer_rank total
  { purchase_count := count, total_purchase := total, rank := rank,
    rank_name := RANK_NAMES rank, rank_color := RANK_COLORS rank }

/-- The named filters of the item listing page (src/app.py lines 234-263). -/
inductive FilterType where
  | all
  | today
  | yesterday
  | this_week
  | this_month
  | not_listed
  | listed
  | sold
deriving DecidableEq

/-- The date strings the `index` route computes from the server's current
local date: today, yesterday, the Monday of the current week, the first
day of the current month (src/app.py lines 245-257). SQL compares the
TEXT `purchase_date` column to these ISO strings lexicographically. -/
structure DateCtx where
  todayStr : String
  yesterdayStr : String
  weekStartStr : String
  monthStartStr : String

/-- Does `haystack` start with `needle`? (character lists) -/
def startsWith : List Char → List Char → Bool
  | [], _ => true
  | _ :: _, [] => false
  | a :: as, b :: bs => a == b && startsWith as bs

/-- Does `hay` contain `needle` as a contiguous segment? -/
def containsSeg (needle : List Char) : List Char → Bool
  | [] => startsWith needle []
  | c :: t => startsWith needle (c :: t) || containsSeg needle t

/-- SQL `field LIKE '%search%'` on a nullable TEXT column: NULL never
matches; otherwise case-insensitive substring containment. -/
def likeMatch (field : Option String) (search : String) : Bool :=
  match field with
  | none => false
  | some s => containsSeg search.toLower.data s.toLower.data

/-- The search condition of the `index` route (src/app.py lines 241-243):
added only when the search term is non-empty, an OR over product_name,
store_name and sales_platform. -/
def matchesSearch (search : String) (it : Item) : Bool :=
  if search == "" then true
  else likeMatch (some it.product_name) search
    || likeMatch it.store_name search
    || likeMatch it.sales_platform search

/-- The named-filter condition of the `index` route (src/app.py lines
246-263), evaluated on one row. A NULL `purchase_date` fails every date
comparison. -/
def filterCond (d : DateCtx) (ft : FilterType) (it : Item) : Bool :=
  match ft with
  | .all => true
  | .today => it.purchase_date == some d.todayStr
  | .yesterday => it.purchase_date == some d.yesterdayStr
  | .this_week =>
    match it.purchase_date with
    | none => false
    | some s => d.weekStartStr ≤ s
  | .this_month =>
    match it.purchase_date with
    | none => false
    | some s => d.monthStartStr ≤ s
  | .not_listed => !it.is_listed
  | .listed => it.is_listed && !(isSold it)
  | .sold => isSold it

/-- The filtered, id-descending item view of the `index` route
(src/app.py lines 237-269): WHERE search-condition AND filter-condition
ORDER BY id DESC. -/
def indexItems (d : DateCtx) (search : String) (ft : FilterType) (db : DB) : List Item :=
  (db.items.filter (fun it => matchesSearch search it && filterCond d ft it)).mergeSort
    (fun a b => b.id ≤ a.id)

/-- The four aggregate counters (src/app.py lines 271-276 and 417-422). -/
structure Stats where
  total : Nat
  listed : Nat
  sold : Nat
  total_profit : ℚ
deriving DecidableEq

/-- The summand of `SUM(sale_price - purchase_price - shipping_cost -
commission)`: SQL arithmetic on a NULL operand is NULL, and `SUM` skips
NULL summands. -/
def sqlProfitTerm (it : Item) : Option ℚ :=
  match it.sale_price, it.purchase_price, it.shipping_cost, it.commission with
  | some a, some b, some c, some d => some (a - b - c - d)
  | _, _, _, _ => none

/-- The `stats` dict of the `index` route (src/app.py lines 271-276):
four aggregate queries over the whole `merchandise` table, never over
the filtered view. -/
def indexStats (db : DB) : Stats :=
  { total := db.items.length,
    listed := (db.items.filter (fun it => it.is_listed)).length,
    sold := (db.items.filter isSold).length,
    total_profit := ((db.items.filter isSold).filterMap sqlProfitTerm).sum }

/-- What the `index` route renders: the filtered view plus the stats. -/
structure IndexPage where
  items : List Item
  stats : Stats

/-- The `index` route (src/app.py lines 231-281). -/
def index (d : DateCtx) (search : String) (ft : FilterType) (db : DB) : IndexPage :=
  { items := indexItems d search ft db, stats := indexStats db }

/-- `api_stats` (src/app.py lines 414-424): the same four aggregate
queries as the `index` route. -/
def api_stats (db : DB) : Stats :=
  { total := db.items.length,
    listed := (db.items.filter (fun it => it.is_listed)).length,
    sold := (db.items.filter isSold).length,
    total_profit := ((db.items.filter isSold).filterMap sqlProfitTerm).sum }

/-- A flash notice: message text and category. -/
structure Flash where
  message : String
  category : String
deriving DecidableEq

/-- Outcome of a mutating route: new store state, flash, redirect target. -/
structure ActionResult where
  db : DB
  flash : Flash
  redirect : String
deriving DecidableEq

/-- `delete_item` (src/app.py lines 371-377): `DELETE FROM merchandise
WHERE id = %s`, then an unconditional success flash and redirect to the
item listing — no existence check is made. -/
def delete_item (id : Nat) (db : DB) : ActionResult :=
  { db := { db with items := db.items.filter (fun it => !(it.id == id)) },
    flash := { message := "商品を削除しました", category := "success" },
    redirect := "index" }

/-- The per-row effect of `UPDATE merchandise SET customer_id = NULL
WHERE customer_id = %s` (src/app.py line 526). -/
def clearCustomer (id : Nat) (it : Item) : Item :=
  if it.customer_id == some id then { it with customer_id := none } else it

/-- `delete_customer` (src/app.py lines 523-530): first clear
`customer_id` on every referencing item, then delete the customer row. -/
def delete_customer (id : Nat) (db : DB) : ActionResult :=
  { db := { items := db.items.map (clearCustomer id),
            customers := db.customers.filter (fun c => !(c.id == id)) },
    flash := { message := "顧客を削除しました", category := "success" },
    redirect := "customers_list" }

/-- `SELECT * FROM merchandise WHERE id = %s` fetching one row. -/
def getItem (db : DB) (id : Nat) : Option Item :=
  db.items.find? (fun it => it.id == id)

/-- `SELECT * FROM customers WHERE id = %s` fetching one row. -/
def getCustomer (db : DB) (id : Nat) : Option Customer :=
  db.customers.find? (fun c => c.id == id)

/-- A customer row merged with its computed stats, as built by
`customers_list` (src/app.py lines 436-444). -/
structure CustomerRow where
  customer : Customer
  stats : CustomerStats
deriving DecidableEq

/-- The string key of a rank, as stored in the stats dict and compared
with the `rank` query parameter. -/
def rankKey : Rank → String
  | .platinum => "platinum"
  | .gold => "gold"
  | .silver => "silver"
  | .bronze => "bronze"

/-- The name filter of `customers_list` (src/app.py line 442):
`search.lower() not in c['name'].lower()` skips the row. -/
def nameMatches (name search : String) : Bool :=
  containsSeg search.toLower.data name.toLower.data

/-- The loop of `customers_list` (src/app.py lines 434-444): customers
ordered id-descending; for each, stats are computed first, then the rank
filter (skipped when `rank_filter = "all"`) and the name filter (skipped
when the search term is empty) decide whether the row is kept. -/
def customers_with_stats (db : DB) (rank_filter search : String) : List CustomerRow :=
  (db.customers.mergeSort (fun a b => b.id ≤ a.id)).filterMap (fun c =>
    let stats := get_customer_stats db c.id
    if rank_filter != "all" && rankKey stats.rank != rank_filter then none
    else if search != "" && !(nameMatches c.name search) then none
    else some { customer := c, stats := stats })

/-- The `rank_counts` dict (src/app.py line 446): it starts with all
four tier keys at 0. -/
structure RankCounts where
  platinum : Nat
  gold : Nat
  silver : Nat
  bronze : Nat
deriving DecidableEq

/-- One iteration of `rank_counts[c['rank']] += 1` (src/app.py line 448). -/
def bumpRank (rc : RankCounts) : Rank → RankCounts
  | .platinum => { rc with platinum := rc.platinum + 1 }
  | .gold => { rc with gold := rc.gold + 1 }
  | .silver => { rc with silver := rc.silver + 1 }
  | .bronze => { rc with bronze := rc.bronze + 1 }

/-- The count stored under a tier key. -/
def rcGet (rc : RankCounts) : Rank → Nat
  | .platinum => rc.platinum
  | .gold => rc.gold
  | .silver => rc.silver
  | .bronze => rc.bronze

/-- Sum of the four per-tier counts. -/
def rcSum (rc : RankCounts) : Nat :=
  rc.platinum + rc.gold + rc.silver + rc.bronze

/-- The `rank_counts` loop (src/app.py lines 446-448), over the filtered
rows. -/
def rankCounts (rows : List CustomerRow) : RankCounts :=
  rows.foldl (fun rc row => bumpRank rc row.stats.rank)
    { platinum := 0, gold := 0, silver := 0, bronze := 0 }

/-- The `customers_list` route (src/app.py lines 428-453): the filtered
rows and their per-rank counts. -/
def customers_list (db : DB) (rank_filter search : String) :
    List CustomerRow × RankCounts :=
  let rows := customers_with_stats db rank_filter search
  (rows, rankCounts rows)

/-! ## Rank classifier -/

lemma rank_eq_bronze_iff (t : ℚ) : get_customer_rank t = .bronze ↔ t < 10000 := by
  simp only [get_customer_rank, RANK_THRESHOLDS]
  split_ifs with h1 h2 h3 <;> simp_all <;> linarith

lemma rank_eq_silver_iff (t : ℚ) :
    get_customer_rank t = .silver ↔ 10000 ≤ t ∧ t < 50000 := by
  simp only [get_customer_rank, RANK_THRESHOLDS]
  split_ifs with h1 h2 h3 <;> simp_all <;>
    first
      | linarith
      | (intro h; linarith)
      | exact ⟨by linarith, by linarith⟩

lemma rank_eq_gold_iff (t : ℚ) :
    get_customer_rank t = .gold ↔ 50000 ≤ t ∧ t < 100000 := by
  simp only [get_customer_rank, RANK_THRESHOLDS]
  split_ifs with h1 h2 h3 <;> simp_all <;>
    first
      | linarith
      | (intro h; linarith)
      | exact ⟨by linarith, by linarith⟩

lemma rank_eq_platinum_iff (t : ℚ) :
    get_customer_rank t = .platinum ↔ 100000 ≤ t := by
  simp only [get_customer_rank, RANK_THRESHOLDS]
  split_ifs with h1 h2 h3 <;> simp_all <;> linarith

/-- C1: for every monetary total t, `get_customer_rank` returns bronze
iff t < 10000, silver iff 10000 ≤ t < 50000, gold iff 50000 ≤ t <
100000, and platinum iff t ≥ 100000; in particular a negative total
falls into bronze by the same comparison chain. -/
theorem rank_classifier_thresholds (t : ℚ) :
    (get_customer_rank t = .bronze ↔ t < 10000) ∧
    (get_customer_rank t = .silver ↔ 10000 ≤ t ∧ t < 50000) ∧
    (get_customer_rank t = .gold ↔ 50000 ≤ t ∧ t < 100000) ∧
    (get_customer_rank t = .platinum ↔ 100000 ≤ t) :=
  ⟨rank_eq_bronze_iff t, rank_eq_silver_iff t, rank_eq_gold_iff t,
    rank_eq_platinum_iff t⟩

/-! ## Customer statistics aggregator -/

lemma sum_filterMap_sale_price (l : List Item) :
    ((l.filterMap Item.sale_price).sum : ℚ)
      = (l.map (fun it => it.sale_price.getD 0)).sum := by
  induction l with
  | nil => simp
  | cons a t ih => cases h : a.sale_price <;> simp [List.filterMap_cons, h, ih]

/-- C2: for every customer id, `get_customer_stats` returns
`purchase_count` = the number of items whose `customer_id` matches and
whose `sold_date` is present and non-empty, `total_purchase` = the sum
of `sale_price` (missing treated as 0) over exactly that same set, and
the rank is the classifier applied to that raw revenue sum. -/
theorem customer_stats_spec (db : DB) (cid : Nat) :
    (get_customer_stats db cid).purchase_count
        = (db.items.filter (fun it => it.customer_id == some cid && isSold it)).length ∧
    (get_customer_stats db cid).total_purchase
        = ((db.items.filter (fun it => it.customer_id == some cid && isSold it)).map
            (fun it => it.sale_price.getD 0)).sum ∧
    (get_customer_stats db cid).rank
        = get_customer_rank (get_customer_stats db cid).total_purchase := by
  refine ⟨rfl, ?_, rfl⟩
  simpa [get_customer_stats] using
    sum_filterMap_sale_price
      (db.items.filter (fun it => it.customer_id == some cid && isSold it))

/-! ## Profit calculator -/

/-- The realized-side worked example item: sale_price 5000,
purchase_price 3000, shipping_cost 300, commission 200. -/
def exampleSoldItem : Item :=
  { id := 1, purchase_date := some "2024-01-01", photo_path := none,
    product_name := "example", store_name := none,
    purchase_price := some 3000, payment_method := none,
    is_listed := true, listing_date := none, sold_date := some "2024-02-01",
    listing_price := some 0, expected_shipping := some 0,
    expected_commission := some 0, sale_price := some 5000,
    shipping_cost := some 300, sales_platform := none,
    commission := some 200, is_shipped := false, memo := none,
    customer_id := none, created_at := none, updated_at := none }

/-- The projection-side worked example item: listing_price 8000,
purchase_price 5000, expected_shipping 500, expected_commission 400. -/
def exampleListedItem : Item :=
  { id := 2, purchase_date := some "2024-01-01", photo_path := none,
    product_name := "example2", store_name := none,
    purchase_price := some 5000, payment_method := none,
    is_listed := true, listing_date := some "2024-01-05", sold_date := none,
    listing_price := some 8000, expected_shipping := some 500,
    expected_commission := some 400, sale_price := some 0,
    shipping_cost := some 0, sales_platform := none,
    commission := some 0, is_shipped := false, memo := none,
    customer_id := none, created_at := none, updated_at := none }

lemma pyOr0_eq_getD (x : Option ℚ) : pyOr0 x = x.getD 0 := by
  cases x <;> rfl

/-- C3: realized profit is sale_price − purchase_price − shipping_cost −
commission with missing components treated as 0, computable on any
record; the worked example evaluates to 1500. -/
theorem calculate_profit_spec :
    (∀ it : Item, calculate_profit it
        = it.sale_price.getD 0 - it.purchase_price.getD 0
          - it.shipping_cost.getD 0 - it.commission.getD 0) ∧
    calculate_profit exampleSoldItem = 1500 := by
  constructor
  · intro it
    simp [calculate_profit, pyOr0_eq_getD]
  · norm_num [calculate_profit, exampleSoldItem, pyOr0]

/-- C5: projected profit is listing_price − purchase_price −
expected_shipping − expected_commission with missing components treated
as 0; the worked example evaluates to 2100. -/
theorem calculate_expected_profit_spec :
    (∀ it : Item, calculate_expected_profit it
        = it.listing_price.getD 0 - it.purchase_price.getD 0
          - it.expected_shipping.getD 0 - it.expected_commission.getD 0) ∧
    calculate_expected_profit exampleListedItem = 2100 := by
  constructor
  · intro it
    simp [calculate_expected_profit, pyOr0_eq_getD]
  · norm_num [calculate_expected_profit, exampleListedItem, pyOr0]

/-- C4: whenever purchase_price ≤ 0 (a missing value counts as 0), both
profit rates are 0 — the division is never performed with a non-positive
divisor — and whenever purchase_price > 0 each rate is the corresponding
profit divided by purchase_price times 100. -/
theorem profit_rate_guard (it : Item) :
    (pyOr0 it.purchase_price ≤ 0 →
        calculate_profit_rate it = 0 ∧ calculate_expected_profit_rate it = 0) ∧
    (0 < pyOr0 it.purchase_price →
        calculate_profit_rate it
            = calculate_profit it / pyOr0 it.purchase_price * 100 ∧
        calculate_expected_profit_rate it
            = calculate_expected_profit it / pyOr0 it.purchase_price * 100) := by
  constructor
  · intro h
    constructor
    · simp only [calculate_profit_rate]
      rw [if_neg (by linarith)]
    · simp only [calculate_expected_profit_rate]
      rw [if_neg (by linarith)]
  · intro h
    constructor
    · simp only [calculate_profit_rate]
      rw [if_pos h]
    · simp only [calculate_expected_profit_rate]
      rw [if_pos h]

/-- An item with a missing purchase_price (treated as 0). -/
def exampleZeroCostItem : Item :=
  { exampleSoldItem with id := 3, purchase_price := none }

/-- Witness for C4: at a concrete item with missing purchase_price both
rates are 0, and at the worked sold example (purchase_price 3000) the
realized rate is the division formula. -/
theorem profit_rate_guard_witness :
    (calculate_profit_rate exampleZeroCostItem = 0 ∧
      calculate_expected_profit_rate exampleZeroCostItem = 0) ∧
    calculate_profit_rate exampleSoldItem
        = calculate_profit exampleSoldItem / pyOr0 exampleSoldItem.purchase_price * 100 :=
  ⟨(profit_rate_guard exampleZeroCostItem).1
      (by norm_num [exampleZeroCostItem, exampleSoldItem, pyOr0]),
   ((profit_rate_guard exampleSoldItem).2
      (by norm_num [exampleSoldItem, pyOr0])).1⟩

/-! ## Item query/filter engine -/

/-- C6: the named filter "sold" selects exactly the items whose
sold_date is present and non-empty (independent of is_listed), the
named filter "listed" selects exactly the items with is_listed true and
sold_date absent or empty, and no item satisfies both conditions. -/
theorem named_filter_sold_listed (d : DateCtx) (db : DB) (it : Item) :
    (it ∈ indexItems d "" .sold db ↔ it ∈ db.items ∧ isSold it = true) ∧
    (it ∈ indexItems d "" .listed db ↔
        it ∈ db.items ∧ it.is_listed = true ∧ isSold it = false) ∧
    ¬(filterCond d .listed it = true ∧ filterCond d .sold it = true) := by
  refine ⟨?_, ?_, ?_⟩
  · rw [indexItems, (List.mergeSort_perm _ _).mem_iff, List.mem_filter]
    simp [matchesSearch, filterCond]
  · rw [indexItems, (List.mergeSort_perm _ _).mem_iff, List.mem_filter]
    simp [matchesSearch, filterCond]
  · rintro ⟨hl, hs⟩
    simp [filterCond] at hl hs
    simp_all

/-- C7: the four aggregate statistics of the item listing are computed
over the full unfiltered collection — independent of the active date
context, search term and named filter — they coincide with the stats
API, and the aggregate "sold" count equals the count of items
re-filtered by the sold predicate. -/
theorem aggregate_stats_independent (d d2 : DateCtx) (s s2 : String)
    (f f2 : FilterType) (db : DB) :
    (index d s f db).stats = (index d2 s2 f2 db).stats ∧
    (index d s f db).stats = api_stats db ∧
    (index d s f db).stats.sold = (db.items.filter isSold).length :=
  ⟨rfl, rfl, rfl⟩

/-! ## Customer deletion -/

lemma clearCustomer_id (cid : Nat) (it : Item) :
    (clearCustomer cid it).id = it.id := by
  simp only [clearCustomer]
  split <;> rfl

lemma find?_map_clearCustomer (cid i : Nat) (l : List Item) :
    (l.map (clearCustomer cid)).find? (fun it => it.id == i)
      = Option.map (clearCustomer cid) (l.find? (fun it => it.id == i)) := by
  induction l with
  | nil => rfl
  | cons a t ih =>
    simp only [List.map_cons, List.find?, clearCustomer_id]
    cases h : (a.id == i) <;> simp [h, ih]

/-- C8: deleting a customer first clears customer_id on every
referencing item and then deletes the customer row: no item is deleted,
every formerly retrievable item is still retrievable with only its
customer_id possibly changed (cleared exactly when it referenced the
deleted customer), and the customer record is no longer retrievable. -/
theorem delete_customer_spec (cid : Nat) (db : DB) :
    (delete_customer cid db).db.items.length = db.items.length ∧
    getCustomer (delete_customer cid db).db cid = none ∧
    (∀ i it, getItem db i = some it →
        getItem (delete_customer cid db).db i = some (clearCustomer cid it)) ∧
    (∀ it : Item, ∃ c : Option Nat,
        clearCustomer cid it = { it with customer_id := c } ∧
        (it.customer_id = some cid → c = none) ∧
        (it.customer_id ≠ some cid → c = it.customer_id)) := by
  refine ⟨?_, ?_, ?_, ?_⟩
  · simp [delete_customer]
  · rw [getCustomer, List.find?_eq_none]
    intro c hc
    rw [delete_customer] at hc
    simp only [List.mem_filter] at hc
    simpa using hc.2
  · intro i it h
    rw [getItem] at h
    rw [getItem, delete_customer]
    rw [find?_map_clearCustomer, h]
    rfl
  · intro it
    by_cases h : it.customer_id = some cid
    · refine ⟨none, ?_, fun _ => rfl, fun hc => absurd h hc⟩
      simp [clearCustomer, h]
    · refine ⟨it.customer_id, ?_, fun hc => absurd hc h, fun _ => rfl⟩
      simp [clearCustomer, h]

/-- A concrete customer used by the C8 witness. -/
def wCustomer : Customer :=
  { id := 1, name := "Alice", email := none, phone := none, address := none,
    memo := none, created_at := none, updated_at := none }

/-- A concrete item referencing customer 1, used by the C8 witness. -/
def wItemA : Item :=
  { exampleSoldItem with id := 10, customer_id := some 1 }

/-- A concrete store with one customer and three items referencing it. -/
def wDB : DB :=
  { items := [wItemA, { wItemA with id := 11 }, { wItemA with id := 12 }],
    customers := [wCustomer] }

/-- Witness for C8 at a concrete store: item 10 stays retrievable with
its customer reference cleared, and customer 1 is gone. -/
theorem delete_customer_spec_witness :
    getItem (delete_customer 1 wDB).db 10 = some (clearCustomer 1 wItemA) ∧
    getCustomer (delete_customer 1 wDB).db 1 = none ∧
    (∃ c : Option Nat, clearCustomer 1 wItemA = { wItemA with customer_id := c } ∧
        (wItemA.customer_id = some 1 → c = none) ∧
        (wItemA.customer_id ≠ some 1 → c = wItemA.customer_id)) :=
  ⟨(delete_customer_spec 1 wDB).2.2.1 10 wItemA (by decide),
   (delete_customer_spec 1 wDB).2.1,
   (delete_customer_spec 1 wDB).2.2.2 wItemA⟩

/-! ## Customer listing rank counts -/

lemma rcGet_bump (rc : RankCounts) (r r' : Rank) :
    rcGet (bumpRank rc r) r' = rcGet rc r' + if r = r' then 1 else 0 := by
  cases r <;> cases r' <;> simp [bumpRank, rcGet]

lemma rcGet_foldl (rows : List CustomerRow) (rc : RankCounts) (r : Rank) :
    rcGet (rows.foldl (fun a row => bumpRank a row.stats.rank) rc) r
      = rcGet rc r + (rows.filter (fun row => row.stats.rank == r)).length := by
  induction rows generalizing rc with
  | nil => simp
  | cons a t ih =>
    simp only [List.foldl_cons, ih, rcGet_bump, List.filter_cons]
    by_cases h : a.stats.rank = r <;> simp [h] <;> omega

lemma rcSum_bump (rc : RankCounts) (r : Rank) :
    rcSum (bumpRank rc r) = rcSum rc + 1 := by
  cases r <;> simp [bumpRank, rcSum] <;> omega

lemma rcSum_foldl (rows : List CustomerRow) (rc : RankCounts) :
    rcSum (rows.foldl (fun a row => bumpRank a row.stats.rank) rc)
      = rcSum rc + rows.length := by
  induction rows generalizing rc with
  | nil => simp
  | cons a t ih =>
    simp only [List.foldl_cons, ih, rcSum_bump, List.length_cons]
    omega

lemma filterMap_some_fun {α β : Type} (f : α → β) (l : List α) :
    (l.filterMap fun a => some (f a)) = l.map f := by
  induction l with
  | nil => rfl
  | cons a t ih => simp [List.filterMap_cons, ih]

lemma customers_with_stats_all (db : DB) :
    customers_with_stats db "all" ""
      = (db.customers.mergeSort (fun a b => b.id ≤ a.id)).map (fun c =>
          { customer := c, stats := get_customer_stats db c.id }) := by
  have h1 : (("all" : String) != "all") = false := by decide
  have h2 : (("" : String) != "") = false := by decide
  simp only [customers_with_stats, h1, h2, Bool.false_and, Bool.false_eq_true,
    if_false]
  exact filterMap_some_fun _ _

/-- C9: the per-rank count map of the customer listing reports a count
for each of the four tiers, counts are taken over exactly the rows
passing the rank and name filters, and with no filter active the four
counts sum to the total number of customers (every customer also
appears in the listing). -/
theorem customers_rank_counts_spec (db : DB) :
    (∀ rank_filter search : String, ∀ r : Rank,
        rcGet (customers_list db rank_filter search).2 r
          = ((customers_list db rank_filter search).1.filter
              (fun row => row.stats.rank == r)).length) ∧
    rcSum (customers_list db "all" "").2 = db.customers.length ∧
    (customers_list db "all" "").1.length = db.customers.length := by
  have hlen : (customers_list db "all" "").1.length = db.customers.length := by
    simp only [customers_list, customers_with_stats_all, List.length_map]
    exact (List.mergeSort_perm _ _).length_eq
  refine ⟨?_, ?_, hlen⟩
  · intro rf s r
    simp only [customers_list, rankCounts, rcGet_foldl]
    cases r <;> simp [rcGet]
  · simp only [customers_list, rankCounts, rcSum_foldl]
    simpa [rcSum] using hlen

/-! ## Item deletion -/

/-- C10: deleting an item by an id with no record is indistinguishable
at the interface from a successful delete — the same success flash and
redirect are produced unconditionally, the customers table is untouched,
exactly the rows with the given id are removed, and when no row has that
id the store is unchanged. -/
theorem delete_item_spec (id : Nat) (db : DB) :
    (delete_item id db).flash = { message := "商品を削除しました", category := "success" } ∧
    (delete_item id db).redirect = "index" ∧
    (delete_item id db).db.customers = db.customers ∧
    (∀ it : Item, it ∈ (delete_item id db).db.items ↔ it ∈ db.items ∧ it.id ≠ id) ∧
    ((∀ it ∈ db.items, it.id ≠ id) → (delete_item id db).db = db) := by
  refine ⟨rfl, rfl, rfl, ?_, ?_⟩
  · intro it
    simp [delete_item, List.mem_filter]
  · intro h
    cases db with
    | mk items customers =>
      simp only [delete_item]
      congr 1
      exact List.filter_eq_self.mpr (fun a ha => by simpa using h a ha)

/-- A concrete store holding items with ids 1 and 2. -/
def wDB2 : DB := { items := [exampleSoldItem, exampleListedItem], customers := [] }

/-- Witness for C10: deleting the absent id 99 from a concrete store
leaves it unchanged. -/
theorem delete_item_spec_witness : (delete_item 99 wDB2).db = wDB2 :=
  (delete_item_spec 99 wDB2).2.2.2.2 (by decide)

end App
